import Mathlib

/-!
# Verification of `NodeAFK.js`

A shallow embedding of `src/NodeAFK.js` (the `NodeAFK` class): a presence
state machine that samples system idle time on a repeating timer, tracks an
`online`/`away` status, and emits transition events and timed
status-duration events.

Modelling conventions:
* JS numbers used as times/durations are modelled as `Int` (all values the
  program produces here are integers; subtraction may go negative, as in JS).
* Listener handles are opaque; we model them as `Nat` identifiers.
* The inherited `EventEmitter` listener table is modelled as an ordered list
  of `(eventName, listener)` pairs (`super.on` appends).
* A throwing method (`setStatus`) is modelled with `Except String`.
* `pollStatus` returns the post-tick state together with the ordered list of
  emissions of the tick.  JS `emit` runs listeners synchronously, so each
  `Emission` also records `statusAtEmission`: the value of
  `this.currentStatus` at the moment of the `emit` call, i.e. what a
  listener querying the model synchronously during that emission observes.
* `Date.now()` is modelled by a single `now : Int` parameter per call.
* The interval timer world is modelled as a list of active timer ids
  threaded through `init`/`destroy`; `setInterval` is "allocate a fresh id",
  `clearInterval` removes an id from the active list.
-/

namespace NodeAFK

/-- `const STATUS_AWAY = 'away'` -/
def STATUS_AWAY : String := "away"

/-- `const STATUS_ONLINE = 'online'` -/
def STATUS_ONLINE : String := "online"

/-- One element of `this.timedEvents`: `{ status, duration, listener }`. -/
structure TimedEvent where
  status : String
  duration : Int
  listener : Nat
deriving DecidableEq

/-- The mutable fields of a `NodeAFK` instance. -/
structure State where
  inactivityDuration : Int
  pollInterval : Int
  pollIntervalId : Option Nat
  timedEvents : List TimedEvent
  userLastCameOnlineAt : Option Int
  currentStatus : String
  /-- the inherited `EventEmitter` registrations, in registration order -/
  listeners : List (String × Nat)
deriving DecidableEq

/-- One `this.emit(...)` call during a tick.  `payload` is the
`{previousStatus, currentStatus}` object of a `status-change` event (other
events carry no payload).  `statusAtEmission` is `this.currentStatus` at the
moment of the call — what a listener sees if it queries synchronously. -/
structure Emission where
  name : String
  payload : Option (String × String)
  statusAtEmission : String
deriving DecidableEq

/-- The unconditional tail of `setStatus` (runs only after validation):
`this.userLastCameOnlineAt = (status === STATUS_ONLINE) ? Date.now() : undefined;
 this.currentStatus = status;` -/
def setStatusCore (now : Int) (status : String) (st : State) : State :=
  { st with
    userLastCameOnlineAt := if status = STATUS_ONLINE then some now else none
    currentStatus := status }

/-- `setStatus(status)` (lines 42–49): throws unless the status is one of
`[STATUS_AWAY, STATUS_ONLINE]`, otherwise records `userLastCameOnlineAt`
and `currentStatus`. -/
def setStatus (now : Int) (status : String) (st : State) : Except String State :=
  if status = STATUS_AWAY ∨ status = STATUS_ONLINE then
    .ok (setStatusCore now status st)
  else
    .error (status ++ " is not a valid status")

/-- The constructor (lines 20–34): initialises the fields and then calls
`this.setStatus(initialStatus)` (so an invalid initial status throws). -/
def mkNodeAFK (now : Int) (inactivityDuration : Int)
    (pollInterval : Int := 1000) (initialStatus : String := STATUS_ONLINE) :
    Except String State :=
  setStatus now initialStatus
    { inactivityDuration := inactivityDuration
      pollInterval := pollInterval
      pollIntervalId := none
      timedEvents := []
      userLastCameOnlineAt := none
      currentStatus := ""   -- JS: field not yet assigned before `setStatus`
      listeners := [] }

/-- `clearInterval(id)`: the timer id stops being active. -/
def clearInterval (id : Nat) (timers : List Nat) : List Nat :=
  timers.filter (fun t => t ≠ id)

/-- `destroy()` (lines 73–81): `clearInterval` on the stored id when one is
set, `this.timedEvents = []`, `this.removeAllListeners()`.  Note the stored
`pollIntervalId` itself is *not* reset by the source. -/
def destroy (st : State) (timers : List Nat) : State × List Nat :=
  let timers' :=
    match st.pollIntervalId with
    | some id => clearInterval id timers
    | none => timers
  ({ st with timedEvents := [], listeners := [] }, timers')

/-- `init()` (lines 57–64): `this.destroy()`, then
`this.pollIntervalId = setInterval(...)` with a fresh timer id. -/
def init (freshId : Nat) (st : State) (timers : List Nat) : State × List Nat :=
  let p := destroy st timers
  ({ p.1 with pollIntervalId := some freshId }, freshId :: p.2)

/-- Result object of `parseEventName` (lines 183–210). -/
structure EventNameInfo where
  isTimedEvent : Bool
  status : Option String
  duration : Option Int
deriving DecidableEq

/-- `Number(s)` on a non-empty list of decimal digits (group `[0-9]+` of
the regex): its numeric value, so leading zeros are dropped.  (Character
lists are used instead of `String` iterators so every definition reduces.) -/
def digitsVal (ds : List Char) : Nat :=
  ds.foldl (fun acc c => acc * 10 + (c.toNat - '0'.toNat)) 0

/-- Whether `ds` is a non-empty list of decimal digits, i.e. matches
`[0-9]+`. -/
def isDigits (ds : List Char) : Bool :=
  !ds.isEmpty && ds.all Char.isDigit

/-- The `(:([0-9]+))?` part of the regex, specialised to one status
alternative: when `name` is `statusStr ++ ":" ++ digits` with `digits`
matching `[0-9]+`, return the numeric value of group 3. -/
def matchDuration (statusStr name : String) : Option Int :=
  let pre := (statusStr ++ ":").data
  if name.data.take pre.length = pre then
    let ds := name.data.drop pre.length
    if isDigits ds then some (Int.ofNat (digitsVal ds)) else none
  else none

/-- `parseEventName(eventName)` (lines 183–210): match `eventName` against
`^(away|online)(:([0-9]+))?$`.  On no match, all fields stay at their
defaults.  On a match without the `:digits` part, only `status` is set (to
the whole match, which equals group 1 here).  On a match with the `:digits`
part the info is a timed event: `status` is group 1 and `duration` is
`Number(group 3)` (the guard `if (duration)` is JS truthiness on the group-3
*string*, which is non-empty whenever present, so it is exactly
"group 3 present"). -/
def parseEventName (eventName : String) : EventNameInfo :=
  if eventName = STATUS_AWAY ∨ eventName = STATUS_ONLINE then
    { isTimedEvent := false, status := some eventName, duration := none }
  else
    match matchDuration STATUS_AWAY eventName with
    | some d => { isTimedEvent := true, status := some STATUS_AWAY, duration := some d }
    | none =>
      match matchDuration STATUS_ONLINE eventName with
      | some d => { isTimedEvent := true, status := some STATUS_ONLINE, duration := some d }
      | none => { isTimedEvent := false, status := none, duration := none }

/-- `on(eventName, listener)` (lines 89–101): parse the name; when it is a
timed event push `{status, duration, listener}` onto `this.timedEvents`;
always `super.on(eventName, listener)` (append to the emitter table).
(`on` is a reserved token in Lean, hence the name `onEvent`.) -/
def onEvent (eventName : String) (listener : Nat) (st : State) : State :=
  let info := parseEventName eventName
  let newEntry : TimedEvent :=
    { status := info.status.getD ""
      duration := info.duration.getD 0
      listener := listener }
  let st' :=
    if info.isTimedEvent then
      { st with timedEvents := st.timedEvents ++ [newEntry] }
    else st
  { st' with listeners := st'.listeners ++ [(eventName, listener)] }

/-- `super.off(eventName, listener)`: Node's `EventEmitter.off` removes at
most one matching registration from the emitter table (the most recently
added one). -/
def emitterOff (eventName : String) (listener : Nat)
    (ls : List (String × Nat)) : List (String × Nat) :=
  (((ls.reverse).eraseP (fun p => p.1 = eventName ∧ p.2 = listener))).reverse

/-- `off(eventName, listener)` (lines 109–121): parse the name; when it is a
timed event, `this.timedEvents = this.timedEvents.filter(te =>
te.status === info.status && te.duration === info.duration &&
te.listener === listener)` — note `filter` KEEPS the elements satisfying the
predicate; always `super.off(eventName, listener)`. -/
def off (eventName : String) (listener : Nat) (st : State) : State :=
  let info := parseEventName eventName
  let keep : TimedEvent → Bool := fun te =>
    te.status == info.status.getD ""
      && te.duration == info.duration.getD 0
      && te.listener == listener
  let st' :=
    if info.isTimedEvent then
      { st with timedEvents := st.timedEvents.filter keep }
    else st
  { st' with listeners := emitterOff eventName listener st'.listeners }

/-- The body of the `forEach` over `this.timedEvents` (lines 152–174),
evaluated with the post-transition state `st`: decide whether the entry
fires this tick and, when it does, build the `emit(`${status}:${duration}`)`
emission.  In the online branch, when `userLastCameOnlineAt` is `undefined`
the JS comparison `Date.now() - undefined >= duration` is `NaN >= duration`,
which is false. -/
def timedEmission (now idleTime : Int) (st : State) (te : TimedEvent) :
    Option Emission :=
  let awayFires : Bool :=
    st.currentStatus == STATUS_AWAY && st.currentStatus == te.status
      && decide (idleTime - st.inactivityDuration ≥ te.duration)
  let onlineFires : Bool :=
    st.currentStatus == STATUS_ONLINE && st.currentStatus == te.status
      && st.userLastCameOnlineAt.elim false (fun t => decide (now - t ≥ te.duration))
  if awayFires || onlineFires then
    some { name := te.status ++ ":" ++ toString te.duration
           payload := none
           statusAtEmission := st.currentStatus }
  else
    none

/-- `pollStatus()` (lines 127–175) with the tick's sampled
`desktopIdle.getIdleTime()` as `idleTime` and `Date.now()` as `now`.
Returns the post-tick state and the emissions of the tick, in order.  Each
transition branch emits `status-change` then `status:<new>` *before*
committing via `setStatus` (both emissions record the still-uncommitted
`this.currentStatus`); then every timed entry is evaluated against the
now-current status. -/
def pollStatus (now idleTime : Int) (st : State) : State × List Emission :=
  let p1 : State × List Emission :=
    if st.currentStatus = STATUS_ONLINE ∧ idleTime ≥ st.inactivityDuration then
      (setStatusCore now STATUS_AWAY st,
        [{ name := "status-change"
           payload := some (STATUS_ONLINE, STATUS_AWAY)
           statusAtEmission := st.currentStatus },
         { name := "status:away", payload := none
           statusAtEmission := st.currentStatus }])
    else (st, [])
  let st1 := p1.1
  let p2 : State × List Emission :=
    if st1.currentStatus = STATUS_AWAY ∧ idleTime < st1.inactivityDuration then
      (setStatusCore now STATUS_ONLINE st1,
        [{ name := "status-change"
           payload := some (STATUS_AWAY, STATUS_ONLINE)
           statusAtEmission := st1.currentStatus },
         { name := "status:online", payload := none
           statusAtEmission := st1.currentStatus }])
    else (st1, [])
  let st2 := p2.1
  let evs3 := st2.timedEvents.filterMap (timedEmission now idleTime st2)
  (st2, p1.2 ++ p2.2 ++ evs3)

/-- `emit(name)` dispatch: the listeners registered under exactly the
literal name `name`, in registration order (Node's `EventEmitter.emit`
invokes exactly those). -/
def emitTargets (name : String) (st : State) : List Nat :=
  (st.listeners.filter (fun p => p.1 = name)).map Prod.snd

/-! ## Concrete states used to instantiate the theorems -/

/-- A sample instance state: `online`, two timed subscriptions, a running
poll timer with id 3. -/
def exampleState : State :=
  { inactivityDuration := 5000
    pollInterval := 1000
    pollIntervalId := some 3
    timedEvents := [⟨"away", 3000, 1⟩, ⟨"online", 5000, 2⟩]
    userLastCameOnlineAt := some 100
    currentStatus := "online"
    listeners := [("away:3000", 1), ("online:5000", 2)] }

/-- A sample instance state with no subscriptions, currently `away`. -/
def emptyAwayState : State :=
  { inactivityDuration := 5000
    pollInterval := 1000
    pollIntervalId := none
    timedEvents := []
    userLastCameOnlineAt := none
    currentStatus := "away"
    listeners := [] }

/-! ## Helper lemmas -/

/-- A timed-event emission never carries a payload (only `status-change`
emissions do). -/
theorem timedEmission_payload_none (now idleTime : Int) (s : State)
    (te : TimedEvent) (e : Emission)
    (h : timedEmission now idleTime s te = some e) : e.payload = none := by
  simp only [timedEmission] at h
  split at h
  · rw [Option.some.injEq] at h
    subst h
    rfl
  · exact Option.noConfusion h

/-- The transition branches of a tick do not touch the configuration, the
timed-event registry, the timer id or the emitter table. -/
theorem pollStatus_fst_fields (now idleTime : Int) (st : State) :
    (pollStatus now idleTime st).1.inactivityDuration = st.inactivityDuration ∧
    (pollStatus now idleTime st).1.timedEvents = st.timedEvents ∧
    (pollStatus now idleTime st).1.pollIntervalId = st.pollIntervalId ∧
    (pollStatus now idleTime st).1.listeners = st.listeners := by
  simp only [pollStatus]
  split_ifs <;> simp [setStatusCore]

/-- Every emission in the timed-evaluation part of a tick is payload-free. -/
theorem payload_none_of_mem_timed (now idleTime : Int) (s : State)
    (e : Emission)
    (he : e ∈ s.timedEvents.filterMap (timedEmission now idleTime s)) :
    e.payload = none := by
  rw [List.mem_filterMap] at he
  obtain ⟨te, _, hte⟩ := he
  exact timedEmission_payload_none now idleTime s te e hte

/-- The timed-evaluation part of a tick contributes nothing with a payload. -/
theorem filter_isSome_timed_eq_nil (now idleTime : Int) (s : State) :
    (s.timedEvents.filterMap (timedEmission now idleTime s)).filter
      (fun e => e.payload.isSome) = [] := by
  rw [List.filter_eq_nil_iff]
  intro e he
  simp [payload_none_of_mem_timed now idleTime s e he]

/-- Any emission produced by the timed evaluation of the final state of a
tick is among the tick's emissions. -/
theorem mem_pollStatus_snd_of_timed (now idleTime : Int) (st : State)
    (e : Emission)
    (h : e ∈ ((pollStatus now idleTime st).1.timedEvents).filterMap
        (timedEmission now idleTime (pollStatus now idleTime st).1)) :
    e ∈ (pollStatus now idleTime st).2 := by
  simp only [pollStatus] at h ⊢
  exact List.mem_append.mpr (Or.inr h)

/-- Modelled from the claim's words: the pattern `^(away|online):([0-9]+)$`
that is supposed to characterise exactly the event names that populate the
timed-event registry. -/
def timedKeyPattern (name : String) : Bool :=
  (decide (name.data.take 5 = "away:".data) && isDigits (name.data.drop 5))
    || (decide (name.data.take 7 = "online:".data)
        && isDigits (name.data.drop 7))

/-- `matchDuration STATUS_AWAY` succeeds exactly on names of the form
`away:<digits>`. -/
theorem matchDuration_away_isSome (name : String) :
    (matchDuration STATUS_AWAY name).isSome =
      (decide (name.data.take 5 = "away:".data)
        && isDigits (name.data.drop 5)) := by
  have hd : (STATUS_AWAY ++ ":").data = "away:".data := by decide
  have h5 : ("away:" : String).data.length = 5 := by decide
  simp only [matchDuration, hd, h5]
  split_ifs <;> simp_all

/-- `matchDuration STATUS_ONLINE` succeeds exactly on names of the form
`online:<digits>`. -/
theorem matchDuration_online_isSome (name : String) :
    (matchDuration STATUS_ONLINE name).isSome =
      (decide (name.data.take 7 = "online:".data)
        && isDigits (name.data.drop 7)) := by
  have hd : (STATUS_ONLINE ++ ":").data = "online:".data := by decide
  have h7 : ("online:" : String).data.length = 7 := by decide
  simp only [matchDuration, hd, h7]
  split_ifs <;> simp_all

/-- The parser marks a name as a timed event exactly when it matches the
pattern `^(away|online):([0-9]+)$`. -/
theorem parseEventName_isTimedEvent (name : String) :
    (parseEventName name).isTimedEvent = timedKeyPattern name := by
  by_cases h : name = STATUS_AWAY ∨ name = STATUS_ONLINE
  · rcases h with rfl | rfl <;> decide
  · have ha := matchDuration_away_isSome name
    have ho := matchDuration_online_isSome name
    simp only [parseEventName, if_neg h, timedKeyPattern]
    cases hma : matchDuration STATUS_AWAY name with
    | some d =>
      rw [hma, Option.isSome_some] at ha
      simp [← ha]
    | none =>
      rw [hma, Option.isSome_none] at ha
      cases hmo : matchDuration STATUS_ONLINE name with
      | some d =>
        rw [hmo, Option.isSome_some] at ho
        simp [← ha, ← ho]
      | none =>
        rw [hmo, Option.isSome_none] at ho
        simp [← ha, ← ho]

/-! ## Claims -/

/-- C1: the spec claims that `off(eventName, l)` on a timed key removes
every registry entry whose status and duration match the parsed key
(regardless of the stored listener) and keeps every other entry.  The code
does the opposite: `this.timedEvents.filter(...)` KEEPS exactly the entries
matching status, duration and listener, so the very subscription being
unregistered survives while the unrelated `online:5000` subscription is
deleted.  Evaluated at the failing input. -/
theorem off_keeps_matching_entry_and_drops_the_rest :
    (off "away:3000" 1 exampleState).timedEvents = [⟨STATUS_AWAY, 3000, 1⟩] ∧
    (⟨STATUS_ONLINE, 5000, 2⟩ : TimedEvent) ∈ exampleState.timedEvents ∧
    (⟨STATUS_ONLINE, 5000, 2⟩ : TimedEvent) ∉ (off "away:3000" 1 exampleState).timedEvents := by
  decide

/-- C5: `setStatus` with a status outside the two valid ones fails with the
invalid-status error and produces no successor state (so the prior state is
unchanged); the constructor, which ends by calling `setStatus` on
`initialStatus`, fails the same way. -/
theorem setStatus_invalid_status_errors (now inact pi : Int) (s : String)
    (st : State) (h : s ≠ STATUS_AWAY ∧ s ≠ STATUS_ONLINE) :
    setStatus now s st = .error (s ++ " is not a valid status") ∧
    (∀ st2, setStatus now s st ≠ .ok st2) ∧
    mkNodeAFK now inact pi s = .error (s ++ " is not a valid status") := by
  have hc : ¬(s = STATUS_AWAY ∨ s = STATUS_ONLINE) := not_or.mpr h
  refine ⟨?_, ?_, ?_⟩ <;> simp [setStatus, mkNodeAFK, hc]

/-- Witness for C5 at the concrete invalid status `"offline"`. -/
theorem setStatus_invalid_status_errors_witness :
    setStatus 0 "offline" exampleState =
      .error ("offline" ++ " is not a valid status") :=
  (setStatus_invalid_status_errors 0 5000 1000 "offline" exampleState
    (by decide)).1

/-- C6: after a successful `setStatus s`, the current status reads back as
`s`, and `userLastCameOnlineAt` is defined (set to `Date.now()`) exactly
when `s` is `online`; when `s` is `away` it is cleared. -/
theorem setStatus_valid_readback (now : Int) (s : String) (st st2 : State)
    (hs : s = STATUS_AWAY ∨ s = STATUS_ONLINE)
    (h : setStatus now s st = .ok st2) :
    st2.currentStatus = s ∧
    (st2.userLastCameOnlineAt ≠ none ↔ s = STATUS_ONLINE) ∧
    (s = STATUS_ONLINE → st2.userLastCameOnlineAt = some now) ∧
    (s = STATUS_AWAY → st2.userLastCameOnlineAt = none) := by
  rw [setStatus, if_pos hs, Except.ok.injEq] at h
  subst h
  rcases hs with rfl | rfl <;> simp [setStatusCore] <;> decide

/-- Witness for C6 at the concrete status `online`. -/
theorem setStatus_valid_readback_witness :
    (setStatusCore 42 STATUS_ONLINE emptyAwayState).currentStatus =
      STATUS_ONLINE :=
  (setStatus_valid_readback 42 STATUS_ONLINE emptyAwayState
    (setStatusCore 42 STATUS_ONLINE emptyAwayState) (Or.inr rfl) rfl).1

/-- C2: from status `online`, a tick performs the online-to-away transition
exactly when `idleTime ≥ inactivityDuration`.  On that transition the tick
emits, in order, `status-change` with payload (online, away) and then
`status:away`, and both emissions are made while `this.currentStatus` still
reads `online` (the commit via `setStatus` happens only afterwards, so a
listener querying synchronously during either emission observes `online`).
When the guard fails, the state is unchanged and no payload-carrying
(`status-change`) emission occurs. -/
theorem pollStatus_online_to_away (now idleTime : Int) (st : State)
    (h : st.currentStatus = STATUS_ONLINE) :
    ((pollStatus now idleTime st).1.currentStatus = STATUS_AWAY ↔
      st.inactivityDuration ≤ idleTime) ∧
    (st.inactivityDuration ≤ idleTime →
      (pollStatus now idleTime st).2.take 2 =
        [{ name := "status-change"
           payload := some (STATUS_ONLINE, STATUS_AWAY)
           statusAtEmission := STATUS_ONLINE },
         { name := "status:away"
           payload := none
           statusAtEmission := STATUS_ONLINE }]) ∧
    (idleTime < st.inactivityDuration →
      (pollStatus now idleTime st).1 = st ∧
      ∀ e ∈ (pollStatus now idleTime st).2, e.payload = none) := by
  by_cases hge : st.inactivityDuration ≤ idleTime
  · have hnot : ¬ idleTime < st.inactivityDuration := not_lt.mpr hge
    simp [pollStatus, setStatusCore, h, hge, hnot]
  · have hlt : idleTime < st.inactivityDuration := not_le.mp hge
    have hne : ¬ (STATUS_ONLINE = STATUS_AWAY) := by decide
    refine ⟨?_, ?_, fun _ => ⟨?_, ?_⟩⟩
    · simp [pollStatus, h, hge, hne]
    · exact fun hc => absurd hc hge
    · simp [pollStatus, h, hge, hne]
    · intro e he
      have : e ∈ ((pollStatus now idleTime st).1.timedEvents).filterMap
          (timedEmission now idleTime (pollStatus now idleTime st).1) := by
        simp only [pollStatus] at he ⊢
        simpa [h, hge, hne] using he
      exact payload_none_of_mem_timed now idleTime _ e this

/-- Witness for C2: `inactivityDuration = 5000`, idle time 9000, starting
`online`: the tick transitions to `away` and opens with the two emissions,
both observing `online`. -/
theorem pollStatus_online_to_away_witness :
    (pollStatus 10 9000 exampleState).1.currentStatus = STATUS_AWAY ∧
    (pollStatus 10 9000 exampleState).2.take 2 =
      [{ name := "status-change"
         payload := some (STATUS_ONLINE, STATUS_AWAY)
         statusAtEmission := STATUS_ONLINE },
       { name := "status:away"
         payload := none
         statusAtEmission := STATUS_ONLINE }] :=
  ⟨((pollStatus_online_to_away 10 9000 exampleState rfl).1).mpr (by decide),
   (pollStatus_online_to_away 10 9000 exampleState rfl).2.1 (by decide)⟩

/-- C9: a single tick emits at most one `status-change` event (and so makes
at most one transition): for a fixed sampled idle time, the online-to-away
guard and the away-to-online guard cannot both hold within the same tick,
even though the second is re-evaluated after the first transition has been
committed; all timed emissions are payload-free. -/
theorem pollStatus_at_most_one_status_change (now idleTime : Int)
    (st : State) :
    ((pollStatus now idleTime st).2.filter
      (fun e => e.payload.isSome)).length ≤ 1 := by
  simp only [pollStatus]
  split_ifs with c1 c2 c2
  · exfalso
    simp only [setStatusCore] at c2
    have h1 := c1.2
    have h2 := c2.2
    omega
  · simp [List.filter_append, filter_isSome_timed_eq_nil]
  · simp [List.filter_append, filter_isSome_timed_eq_nil]
  · simp [List.filter_append, filter_isSome_timed_eq_nil]

/-- C3: for a registered timed entry with status `away` and threshold `d`,
on any tick whose (post-transition) current status is `away`, the entry
fires — emitting the event named `away:<d>` — exactly when
`idleTime - inactivityDuration ≥ d`.  The statement is universal in the
tick's inputs, so the condition is level-triggered: every subsequent tick
on which it still holds fires again. -/
theorem pollStatus_timed_away_level_triggered (now idleTime d : Int)
    (l : Nat) (st : State)
    (hmem : ({ status := STATUS_AWAY, duration := d, listener := l } :
        TimedEvent) ∈ st.timedEvents)
    (hst : (pollStatus now idleTime st).1.currentStatus = STATUS_AWAY) :
    (timedEmission now idleTime (pollStatus now idleTime st).1
        { status := STATUS_AWAY, duration := d, listener := l } =
      if d ≤ idleTime - st.inactivityDuration then
        some { name := STATUS_AWAY ++ ":" ++ toString d
               payload := none
               statusAtEmission := STATUS_AWAY }
      else none) ∧
    (d ≤ idleTime - st.inactivityDuration →
      ({ name := STATUS_AWAY ++ ":" ++ toString d
         payload := none
         statusAtEmission := STATUS_AWAY } : Emission) ∈
        (pollStatus now idleTime st).2) := by
  have hfields := pollStatus_fst_fields now idleTime st
  have hne : ¬ (STATUS_AWAY = STATUS_ONLINE) := by decide
  have hemit : timedEmission now idleTime (pollStatus now idleTime st).1
      { status := STATUS_AWAY, duration := d, listener := l } =
      if d ≤ idleTime - st.inactivityDuration then
        some { name := STATUS_AWAY ++ ":" ++ toString d
               payload := none
               statusAtEmission := STATUS_AWAY }
      else none := by
    simp only [timedEmission, hst, hfields.1]
    split_ifs with h1 h2 h2 <;> simp_all [hne]
  refine ⟨hemit, fun hd => ?_⟩
  apply mem_pollStatus_snd_of_timed
  rw [hfields.2.1]
  exact List.mem_filterMap.mpr
    ⟨{ status := STATUS_AWAY, duration := d, listener := l }, hmem,
      by rw [hemit, if_pos hd]⟩

/-- Witness for C3: idle time 9000 with threshold 5000 drives the sample
state `away` on this tick, and the `away:3000` subscription fires since
`9000 - 5000 ≥ 3000`. -/
theorem pollStatus_timed_away_level_triggered_witness :
    ({ name := STATUS_AWAY ++ ":" ++ toString (3000 : Int)
       payload := none
       statusAtEmission := STATUS_AWAY } : Emission) ∈
      (pollStatus 10 9000 exampleState).2 :=
  (pollStatus_timed_away_level_triggered 10 9000 3000 1 exampleState
    (by decide) (by decide)).2 (by decide)

/-- C4: for a registered timed entry with status `online` and threshold `d`,
on any tick whose (post-transition) current status is `online` — with
`userLastCameOnlineAt` holding the timestamp `t` at which the user most
recently became online — the entry fires, emitting the event named
`online:<d>`, exactly when `now - t ≥ d`; being universal in the tick's
inputs, it fires on every such tick until the status changes. -/
theorem pollStatus_timed_online_level_triggered (now idleTime d t : Int)
    (l : Nat) (st : State)
    (hmem : ({ status := STATUS_ONLINE, duration := d, listener := l } :
        TimedEvent) ∈ st.timedEvents)
    (hst : (pollStatus now idleTime st).1.currentStatus = STATUS_ONLINE)
    (hlast : (pollStatus now idleTime st).1.userLastCameOnlineAt = some t) :
    (timedEmission now idleTime (pollStatus now idleTime st).1
        { status := STATUS_ONLINE, duration := d, listener := l } =
      if d ≤ now - t then
        some { name := STATUS_ONLINE ++ ":" ++ toString d
               payload := none
               statusAtEmission := STATUS_ONLINE }
      else none) ∧
    (d ≤ now - t →
      ({ name := STATUS_ONLINE ++ ":" ++ toString d
         payload := none
         statusAtEmission := STATUS_ONLINE } : Emission) ∈
        (pollStatus now idleTime st).2) := by
  have hfields := pollStatus_fst_fields now idleTime st
  have hne : ¬ (STATUS_ONLINE = STATUS_AWAY) := by decide
  have hemit : timedEmission now idleTime (pollStatus now idleTime st).1
      { status := STATUS_ONLINE, duration := d, listener := l } =
      if d ≤ now - t then
        some { name := STATUS_ONLINE ++ ":" ++ toString d
               payload := none
               statusAtEmission := STATUS_ONLINE }
      else none := by
    simp only [timedEmission, hst, hlast]
    split_ifs with h1 h2 h2 <;> simp_all [hne]
  refine ⟨hemit, fun hd => ?_⟩
  apply mem_pollStatus_snd_of_timed
  rw [hfields.2.1]
  exact List.mem_filterMap.mpr
    ⟨{ status := STATUS_ONLINE, duration := d, listener := l }, hmem,
      by rw [hemit, if_pos hd]⟩

/-- Witness for C4: idle time 4000 keeps the sample state `online`
(`userLastCameOnlineAt = 100`); at `now = 6000` the `online:5000`
subscription fires since `6000 - 100 ≥ 5000`. -/
theorem pollStatus_timed_online_level_triggered_witness :
    ({ name := STATUS_ONLINE ++ ":" ++ toString (5000 : Int)
       payload := none
       statusAtEmission := STATUS_ONLINE } : Emission) ∈
      (pollStatus 6000 4000 exampleState).2 :=
  (pollStatus_timed_online_level_triggered 6000 4000 5000 100 2 exampleState
    (by decide) (by decide) (by decide)).2 (by decide)

/-- C7: `on(name, l)` adds an entry to the timed-event registry if and only
if `name` matches `^(away|online):([0-9]+)$`; non-matching names such as
`"status-change"` and `"online"` (no colon) never populate the registry and
are only registered with the general listener mechanism (to which every
subscription is appended); `"away:0"` is a valid timed key parsed with
threshold 0. -/
theorem on_populates_registry_iff_pattern (name : String) (l : Nat)
    (st : State) :
    ((parseEventName name).isTimedEvent = timedKeyPattern name) ∧
    (timedKeyPattern name = false →
      (onEvent name l st).timedEvents = st.timedEvents) ∧
    (timedKeyPattern name = true →
      (onEvent name l st).timedEvents ≠ st.timedEvents) ∧
    ((onEvent name l st).listeners = st.listeners ++ [(name, l)]) ∧
    (onEvent "status-change" l st).timedEvents = st.timedEvents ∧
    (onEvent "online" l st).timedEvents = st.timedEvents ∧
    (onEvent "away:0" l st).timedEvents =
      st.timedEvents ++ [{ status := STATUS_AWAY, duration := 0, listener := l }] := by
  have key := parseEventName_isTimedEvent name
  refine ⟨key, fun hf => ?_, fun ht => ?_, ?_, rfl, rfl, rfl⟩
  · rw [hf] at key
    simp [onEvent, key]
  · rw [ht] at key
    simp only [onEvent, key, if_true]
    intro heq
    have := congrArg List.length heq
    simp at this
  · simp only [onEvent]
    split <;> rfl

/-- Witness for C7: `"foo"` does not populate the registry, `"away:12"`
does. -/
theorem on_populates_registry_iff_pattern_witness :
    (onEvent "foo" 7 emptyAwayState).timedEvents =
      emptyAwayState.timedEvents ∧
    (onEvent "away:12" 7 emptyAwayState).timedEvents ≠
      emptyAwayState.timedEvents :=
  ⟨(on_populates_registry_iff_pattern "foo" 7 emptyAwayState).2.1 (by decide),
   (on_populates_registry_iff_pattern "away:12" 7 emptyAwayState).2.2.1
     (by decide)⟩

/-- C8: `destroy` empties the timed-event registry, removes all listeners
and stops the stored poll timer; `init` performs the same teardown and then
starts a fresh repeating timer.  So after `destroy` followed by `init`, no
timed entry or listener from before survives, the registry is empty, and
the fresh timer is the one running. -/
theorem destroy_then_init_resets (st : State) (timers : List Nat)
    (freshId oldId : Nat) (hid : st.pollIntervalId = some oldId) :
    (destroy st timers).1.timedEvents = [] ∧
    (destroy st timers).1.listeners = [] ∧
    oldId ∉ (destroy st timers).2 ∧
    (init freshId (destroy st timers).1 (destroy st timers).2).1.timedEvents
      = [] ∧
    (init freshId (destroy st timers).1 (destroy st timers).2).1.listeners
      = [] ∧
    (init freshId (destroy st timers).1 (destroy st timers).2).1.pollIntervalId
      = some freshId ∧
    freshId ∈ (init freshId (destroy st timers).1 (destroy st timers).2).2 := by
  simp [destroy, init, clearInterval, hid, List.mem_filter]

/-- Witness for C8 on the sample state (stored timer id 3, active timers 3
and 8, fresh timer id 9). -/
theorem destroy_then_init_resets_witness :
    (destroy exampleState [3, 8]).1.timedEvents = [] ∧
    (3 : Nat) ∉ (destroy exampleState [3, 8]).2 ∧
    (init 9 (destroy exampleState [3, 8]).1 (destroy exampleState [3, 8]).2).1.timedEvents = [] ∧
    (9 : Nat) ∈ (init 9 (destroy exampleState [3, 8]).1 (destroy exampleState [3, 8]).2).2 :=
  ⟨(destroy_then_init_resets exampleState [3, 8] 9 3 rfl).1,
   (destroy_then_init_resets exampleState [3, 8] 9 3 rfl).2.2.1,
   (destroy_then_init_resets exampleState [3, 8] 9 3 rfl).2.2.2.1,
   (destroy_then_init_resets exampleState [3, 8] 9 3 rfl).2.2.2.2.2.2⟩

/-- C10: subscribing with leading zeros in the duration digits
(`on("away:007", l)`) stores the numeric duration 7 in the registry; the
timed firing emits the canonical name `"away:7"`, not the literal name
`"away:007"` the listener was registered under, so `emit` dispatch for the
fired event reaches no listener. -/
theorem timed_firing_uses_canonical_name_not_literal :
    parseEventName "away:007" =
      { isTimedEvent := true, status := some STATUS_AWAY, duration := some 7 } ∧
    (onEvent "away:007" 5 emptyAwayState).timedEvents =
      [⟨STATUS_AWAY, 7, 5⟩] ∧
    (onEvent "away:007" 5 emptyAwayState).listeners = [("away:007", 5)] ∧
    (pollStatus 0 9000 (onEvent "away:007" 5 emptyAwayState)).2 =
      [{ name := "away:7", payload := none, statusAtEmission := STATUS_AWAY }] ∧
    emitTargets "away:7" (onEvent "away:007" 5 emptyAwayState) = [] ∧
    emitTargets "away:007" (onEvent "away:007" 5 emptyAwayState) = [5] := by
  decide

end NodeAFK
